import Mathlib

/-!
Verification of the Seller-Quality-Automation repository.

Part 1 embeds the production BigQuery query (the `WeeklyData`, `CurrentStatus`,
`…Runs`/`…Streaks`, `EffectiveStreaks`, `EmailActions` CTEs and the final
`WHERE` filter), specialised to a single JP seller.  Part 2 embeds the
Apps-Script side (`Email.gs` and the seller-id matching in `UI.gs`).
-/

namespace SellerQuality

/-- One pre-aggregated row of the historic quality table for one JP seller:
`date` is a day index in which Mondays are exactly the multiples of 7
(BigQuery `EXTRACT(DAYOFWEEK FROM DATE_KPI) = 2`); the three counters are the
`NB_DEFECTIVE_ISSUE`, `NB_APPEARANCE_ISSUE` and `NB_ORDERLINE_DELIVERED_30D`
columns, already summed per `DATE_KPI` (the query's `GROUP BY` collapses
duplicate rows; the row lists are kept in ascending `DATE_KPI` order). -/
structure QualityRow where
  date : Int
  nbDefectiveIssue : Nat
  nbAppearanceIssue : Nat
  nbDelivered : Nat
deriving Repr, DecidableEq

/-- BigQuery `EXTRACT(DAYOFWEEK FROM d) = 2` (Monday) under the day-index
encoding in which Mondays are the multiples of 7. -/
def isMonday (d : Int) : Bool := d % 7 = 0

/-- BigQuery `ROUND(q, 6)` (round half away from zero; the ratios here are
nonnegative, where this agrees with rounding half up). -/
def round6 (q : ℚ) : ℚ := (round (q * 1000000) : ℤ) / 1000000

/-- `ROUND(SUM(issue) / NULLIF(SUM(delivered), 0), 6)`: `none` models the SQL
NULL produced when the delivered count is 0. -/
def ratio6 (issue delivered : Nat) : Option ℚ :=
  if delivered = 0 then none
  else some (round6 ((issue : ℚ) / (delivered : ℚ)))

/-- SQL `COALESCE` over an optional rational. -/
def coalesceQ (o : Option ℚ) (d : ℚ) : ℚ := o.getD d

/-- `WeeklyData`'s flag:
`CASE WHEN SUM(issue) >= 2 AND ROUND(SUM(issue)/NULLIF(SUM(delivered),0),6) > th
THEN 1 ELSE 0 END`.  A NULL ratio makes the comparison NULL, which falls
through to the ELSE branch. -/
def hadIssueFlag (issue delivered : Nat) (th : ℚ) : Bool :=
  decide (2 ≤ issue) &&
    (match ratio6 issue delivered with
      | some r => decide (th < r)
      | none => false)

/-- `CurrentStatus`'s flag:
`CASE WHEN COALESCE(nb30, 0) >= 2 AND COALESCE(rate30, 0) > th THEN 1 ELSE 0 END`. -/
def currentStatusFlag (issue delivered : Nat) (th : ℚ) : Bool :=
  decide (2 ≤ issue) && decide (th < coalesceQ (ratio6 issue delivered) 0)

/-- Sum of a counter over the rows selected by a predicate (SQL `SUM` with a
`WHERE`/join filter). -/
def sumBy (rows : List QualityRow) (p : QualityRow → Bool) (f : QualityRow → Nat) : Nat :=
  ((rows.filter p).map f).sum

/-- Row filter of the `Defective30D`/`Appearance30D` CTEs: the INNER JOIN on
`h.DATE_KPI = ls.DATE_KPI` combined with
`h.DATE_KPI BETWEEN DATE_SUB(ls.DATE_KPI, INTERVAL 30 DAY) AND ls.DATE_KPI`;
the join equality makes the 30-day window collapse to the reference date. -/
def window30 (dataDate : Int) (r : QualityRow) : Bool :=
  decide (r.date = dataDate) && decide (dataDate - 30 ≤ r.date) && decide (r.date ≤ dataDate)

/-- `Defective30D.NB_DEFECTIVE_30D`. -/
def nbDefective30D (dataDate : Int) (rows : List QualityRow) : Nat :=
  sumBy rows (window30 dataDate) (·.nbDefectiveIssue)

/-- `Appearance30D.NB_APPEARANCE_ISSUE_30D`. -/
def nbAppearance30D (dataDate : Int) (rows : List QualityRow) : Nat :=
  sumBy rows (window30 dataDate) (·.nbAppearanceIssue)

/-- `NB_ORDERLINE_DELIVERED_30D` summed over the same window (identical in both
30-day CTEs). -/
def delivered30D (dataDate : Int) (rows : List QualityRow) : Nat :=
  sumBy rows (window30 dataDate) (·.nbDelivered)

/-- `CurrentStatus.CURRENT_DEFECTIVE_STATUS` (defect threshold 0.03). -/
def currentDefectiveStatus (dataDate : Int) (rows : List QualityRow) : Bool :=
  currentStatusFlag (nbDefective30D dataDate rows) (delivered30D dataDate rows) (3 / 100)

/-- `CurrentStatus.CURRENT_APPEARANCE_STATUS` (appearance threshold 0.0075). -/
def currentAppearanceStatus (dataDate : Int) (rows : List QualityRow) : Bool :=
  currentStatusFlag (nbAppearance30D dataDate rows) (delivered30D dataDate rows) (3 / 400)

/-- `WeeklyData`'s row filter: Mondays on or after the declared start date. -/
def weeklyKeep (startDate : Int) (r : QualityRow) : Bool :=
  isMonday r.date && decide (startDate ≤ r.date)

/-- `WeeklyData.HAD_DEFECTIVE_ISSUE`, one flag per kept week, in `DATE_KPI`
order (the input rows are listed in ascending date order). -/
def weeklyDefectiveFlags (startDate : Int) (rows : List QualityRow) : List Bool :=
  (rows.filter (weeklyKeep startDate)).map
    (fun r => hadIssueFlag r.nbDefectiveIssue r.nbDelivered (3 / 100))

/-- `WeeklyData.HAD_APPEARANCE_ISSUE`, one flag per kept week, in date order. -/
def weeklyAppearanceFlags (startDate : Int) (rows : List QualityRow) : List Bool :=
  (rows.filter (weeklyKeep startDate)).map
    (fun r => hadIssueFlag r.nbAppearanceIssue r.nbDelivered (3 / 400))

/-- Left-to-right scan implementing the `…Runs`/`…Streaks`/`Latest…Streak` CTE
chain for one seller: `cur` is the `ROW_NUMBER` that the next flagged week
would receive inside the current group (each non-flagged week increments the
group counter, which resets the within-group numbering), and `last` is the
`STREAK_LENGTH` of the most recently seen flagged week, i.e. the row with
`RECENCY_RANK = 1`; `none` models the LEFT JOIN finding no flagged week. -/
def latestStreakAux (cur : Nat) (last : Option Nat) : List Bool → Option Nat
  | [] => last
  | true :: rest => latestStreakAux (cur + 1) (some (cur + 1)) rest
  | false :: rest => latestStreakAux 0 last rest

/-- `LATEST_DEFECTIVE_STREAK` / `LATEST_APPEARANCE_STREAK` for a weekly flag
series. -/
def latestStreak (flags : List Bool) : Option Nat := latestStreakAux 0 none flags

/-- `EffectiveStreaks`'s CASE: start a new streak at 1 when currently failing
with no historical streak, continue the latest historical streak when currently
failing, and 0 when not currently failing. -/
def effectiveStreakOf (currentStatus : Bool) (latest : Option Nat) : Nat :=
  if currentStatus then
    match latest with
    | none => 1
    | some h => h
  else 0

/-- `EffectiveStreaks.EFFECTIVE_DEFECTIVE_STREAK` computed from the raw rows. -/
def effectiveDefectiveStreak (startDate dataDate : Int) (rows : List QualityRow) : Nat :=
  effectiveStreakOf (currentDefectiveStatus dataDate rows)
    (latestStreak (weeklyDefectiveFlags startDate rows))

/-- `EffectiveStreaks.EFFECTIVE_APPEARANCE_STREAK` computed from the raw rows. -/
def effectiveAppearanceStreak (startDate dataDate : Int) (rows : List QualityRow) : Nat :=
  effectiveStreakOf (currentAppearanceStatus dataDate rows)
    (latestStreak (weeklyAppearanceFlags startDate rows))

/-- Length of the leading run of `true` flags in a list. -/
def leadingTrueCount : List Bool → Nat
  | true :: rest => leadingTrueCount rest + 1
  | _ => 0

/-- Modelled from the spec (the claimed streak semantics, for comparison with
the query's `EffectiveStreaks`): the number of trailing consecutive present
weeks whose pass/fail flag is `true`, ending at the most recent observed
week. -/
def trailingTrueCount (flags : List Bool) : Nat := leadingTrueCount flags.reverse

/-- `EmailActions.DEFECTIVE_EMAIL_ACTION` / `APPEARANCE_EMAIL_ACTION`: the
per-metric CASE, which only triggers an action when the metric is currently
failing. -/
def metricEmailAction (currentStatus : Bool) (streak : Nat) : String :=
  if currentStatus then
    if streak = 1 then "Send First Warning"
    else if streak = 4 then "Send Last Warning"
    else if streak = 5 then "Send Suspension Notice"
    else "No Action"
  else "No Action"

/-- `EmailActions.FINAL_EMAIL_ACTION`: the priority CASE over both metrics,
first match winning. -/
def finalEmailAction (defStreak appStreak : Nat) (curDef curApp : Bool) : String :=
  if (defStreak = 5 ∧ curDef = true) ∨ (appStreak = 5 ∧ curApp = true) then
    "Send Suspension Notice"
  else if (defStreak = 4 ∧ curDef = true) ∨ (appStreak = 4 ∧ curApp = true) then
    "Send Last Warning"
  else if (defStreak = 1 ∧ curDef = true) ∨ (appStreak = 1 ∧ curApp = true) then
    "Send First Warning"
  else "No Action"

/-- The final `WHERE` filter of the query: keep sellers with an active streak in
either metric, but drop any whose streak exceeds 5 in either metric. -/
def includedInOutput (defStreak appStreak : Nat) : Bool :=
  (decide (0 < defStreak) || decide (0 < appStreak))
    && decide (defStreak ≤ 5) && decide (appStreak ≤ 5)

/-- C2: the final action is resolved in strict priority order with the first
match winning — Suspension Notice when either metric has streak 5 and is
currently failing; otherwise Last Warning at streak 4; otherwise First Warning
at streak 1; otherwise No Action.  In particular defectiveStreak = 4 and
appearanceStreak = 5 with both metrics currently failing resolves to
Send Suspension Notice. -/
theorem finalEmailAction_priority (sd sa : Nat) (cd ca : Bool) :
    (finalEmailAction sd sa cd ca = "Send Suspension Notice" ↔
      ((sd = 5 ∧ cd = true) ∨ (sa = 5 ∧ ca = true)))
    ∧ (finalEmailAction sd sa cd ca = "Send Last Warning" ↔
      (¬ ((sd = 5 ∧ cd = true) ∨ (sa = 5 ∧ ca = true)) ∧
        ((sd = 4 ∧ cd = true) ∨ (sa = 4 ∧ ca = true))))
    ∧ (finalEmailAction sd sa cd ca = "Send First Warning" ↔
      (¬ ((sd = 5 ∧ cd = true) ∨ (sa = 5 ∧ ca = true)) ∧
        ¬ ((sd = 4 ∧ cd = true) ∨ (sa = 4 ∧ ca = true)) ∧
        ((sd = 1 ∧ cd = true) ∨ (sa = 1 ∧ ca = true))))
    ∧ (finalEmailAction sd sa cd ca = "No Action" ↔
      (¬ ((sd = 5 ∧ cd = true) ∨ (sa = 5 ∧ ca = true)) ∧
        ¬ ((sd = 4 ∧ cd = true) ∨ (sa = 4 ∧ ca = true)) ∧
        ¬ ((sd = 1 ∧ cd = true) ∨ (sa = 1 ∧ ca = true))))
    ∧ finalEmailAction 4 5 true true = "Send Suspension Notice" := by
  refine ⟨?_, ?_, ?_, ?_, by decide⟩ <;>
    · unfold finalEmailAction
      split_ifs with h1 h2 h3 <;> simp_all

/-- C3: per metric, the action is No Action when the metric is not currently
failing; when failing it is Send First Warning at streak 1, Send Last Warning
at streak 4, Send Suspension Notice at streak 5 and No Action at streaks 2 and
3; a seller with both streaks in the set containing 2 and 3 resolves to final
action No Action, and the scenario defectiveStreak = 1, appearanceStreak = 0
with only the defect metric currently failing yields finalAction = Send First
Warning, defectiveAction = Send First Warning, appearanceAction = No Action. -/
theorem metricAction_mapping :
    (∀ s : Nat, metricEmailAction false s = "No Action")
    ∧ metricEmailAction true 1 = "Send First Warning"
    ∧ metricEmailAction true 4 = "Send Last Warning"
    ∧ metricEmailAction true 5 = "Send Suspension Notice"
    ∧ metricEmailAction true 2 = "No Action"
    ∧ metricEmailAction true 3 = "No Action"
    ∧ (∀ (sd sa : Nat) (cd ca : Bool), (sd = 2 ∨ sd = 3) → (sa = 2 ∨ sa = 3) →
        finalEmailAction sd sa cd ca = "No Action")
    ∧ (finalEmailAction 1 0 true false = "Send First Warning"
        ∧ metricEmailAction true 1 = "Send First Warning"
        ∧ metricEmailAction false 0 = "No Action") := by
  refine ⟨fun s => rfl, by decide, by decide, by decide, by decide, by decide,
    ?_, by decide, by decide, by decide⟩
  rintro sd sa cd ca (rfl | rfl) (rfl | rfl) <;> simp [finalEmailAction]

/-- Witness for C2: appearanceStreak 5 currently failing resolves to the
suspension notice through the first priority branch. -/
theorem finalEmailAction_priority_witness :
    finalEmailAction 5 0 true false = "Send Suspension Notice" :=
  (finalEmailAction_priority 5 0 true false).1.mpr (Or.inl ⟨rfl, rfl⟩)

/-- Witness for C3: streaks 2 and 3 with both metrics currently failing stay
silent. -/
theorem metricAction_mapping_witness :
    ((2 : Nat) = 2 ∨ (2 : Nat) = 3) ∧ ((3 : Nat) = 2 ∨ (3 : Nat) = 3)
    ∧ finalEmailAction 2 3 true true = "No Action" :=
  ⟨Or.inl rfl, Or.inr rfl,
    metricAction_mapping.2.2.2.2.2.2.1 2 3 true true (Or.inl rfl) (Or.inr rfl)⟩

/-- C4: a seller whose effective streak exceeds 5 in either metric is dropped
from the output row set entirely by the final WHERE pre-filter. -/
theorem streak_exceeds_five_excluded (sd sa : Nat) (h : 5 < sd ∨ 5 < sa) :
    includedInOutput sd sa = false := by
  rcases h with h | h <;> simp [includedInOutput] <;> omega

/-- Witness for C4 at defectiveStreak 6, appearanceStreak 1. -/
theorem streak_exceeds_five_excluded_witness :
    (5 < 6 ∨ 5 < 1) ∧ includedInOutput 6 1 = false :=
  ⟨by decide, streak_exceeds_five_excluded 6 1 (by decide)⟩

/-- C5: a week (or 30-day window) with a delivered count of 0 produces a NULL
ratio, surfaced as rate 0 after COALESCE, and both the weekly pass/fail flag
and the current 30-day status flag are false regardless of the issue count —
the guarded division never triggers the fail branch. -/
theorem zero_delivered_never_fails (issue : Nat) :
    ratio6 issue 0 = none
    ∧ coalesceQ (ratio6 issue 0) 0 = 0
    ∧ hadIssueFlag issue 0 (3 / 100) = false
    ∧ hadIssueFlag issue 0 (3 / 400) = false
    ∧ currentStatusFlag issue 0 (3 / 100) = false
    ∧ currentStatusFlag issue 0 (3 / 400) = false := by
  have h100 : ¬ ((3 : ℚ) / 100 < 0) := by norm_num
  have h400 : ¬ ((3 : ℚ) / 400 < 0) := by norm_num
  refine ⟨rfl, rfl, ?_, ?_, ?_, ?_⟩ <;>
    simp [hadIssueFlag, currentStatusFlag, ratio6, coalesceQ, h100, h400]

/-- Length of the trailing run of `true` flags held by a left-to-right scan:
the counter resets at each `false` week and increments at each `true` week,
starting from `c`. -/
def curRun (c : Nat) : List Bool → Nat
  | [] => c
  | true :: rest => curRun (c + 1) rest
  | false :: rest => curRun 0 rest

theorem latestStreakAux_concat_true (fs : List Bool) :
    ∀ (c : Nat) (l : Option Nat),
      latestStreakAux c l (fs ++ [true]) = some (curRun c fs + 1) := by
  induction fs with
  | nil => intro c l; simp [latestStreakAux, curRun]
  | cons b rest ih => intro c l; cases b <;> simp [latestStreakAux, curRun, ih]

theorem leadingTrueCount_append_of_mem_false (xs ys : List Bool) (h : false ∈ xs) :
    leadingTrueCount (xs ++ ys) = leadingTrueCount xs := by
  induction xs with
  | nil => simp at h
  | cons b rest ih =>
      cases b
      · simp [leadingTrueCount]
      · have h' : false ∈ rest := by simpa using h
        simp [leadingTrueCount, ih h']

theorem leadingTrueCount_append_of_all_true (xs ys : List Bool) (h : ∀ b ∈ xs, b = true) :
    leadingTrueCount (xs ++ ys) = xs.length + leadingTrueCount ys := by
  induction xs with
  | nil => simp
  | cons b rest ih =>
      have hb : b = true := h b (by simp)
      subst hb
      have h' : ∀ b ∈ rest, b = true := fun x hx => h x (by simp [hx])
      simp [leadingTrueCount, ih h']
      omega

theorem trailingTrueCount_of_no_false (xs : List Bool) (h : false ∉ xs) :
    trailingTrueCount xs = xs.length := by
  unfold trailingTrueCount
  have h' : ∀ b ∈ xs.reverse, b = true := by
    intro b hb
    cases b
    · exact absurd (List.mem_reverse.mp hb) h
    · rfl
  have := leadingTrueCount_append_of_all_true xs.reverse [] h'
  simpa using this

theorem curRun_eq (fs : List Bool) : ∀ c : Nat,
    curRun c fs = if false ∈ fs then trailingTrueCount fs else c + fs.length := by
  induction fs with
  | nil => intro c; simp [curRun]
  | cons b rest ih =>
      intro c
      cases b
      · rw [if_pos (by simp)]
        show curRun 0 rest = trailingTrueCount (false :: rest)
        rw [ih 0]
        by_cases hf : false ∈ rest
        · rw [if_pos hf]
          unfold trailingTrueCount
          rw [List.reverse_cons,
            leadingTrueCount_append_of_mem_false _ _ (by simpa using hf)]
        · rw [if_neg hf]
          unfold trailingTrueCount
          rw [List.reverse_cons, leadingTrueCount_append_of_all_true]
          · simp [leadingTrueCount]
          · intro x hx
            cases x
            · exact absurd (List.mem_reverse.mp hx) hf
            · rfl
      · show curRun (c + 1) rest = _
        rw [ih (c + 1)]
        by_cases hf : false ∈ rest
        · rw [if_pos hf, if_pos (by simp [hf])]
          unfold trailingTrueCount
          rw [List.reverse_cons,
            leadingTrueCount_append_of_mem_false _ _ (by simpa using hf)]
        · rw [if_neg hf, if_neg (by simp [hf])]
          simp
          omega

theorem curRun_zero_eq (fs : List Bool) : curRun 0 fs = trailingTrueCount fs := by
  rw [curRun_eq]
  by_cases hf : false ∈ fs
  · rw [if_pos hf]
  · rw [if_neg hf, trailingTrueCount_of_no_false fs hf]
    omega

theorem trailingTrueCount_concat_true (fs : List Bool) :
    trailingTrueCount (fs ++ [true]) = trailingTrueCount fs + 1 := by
  unfold trailingTrueCount
  rw [List.reverse_append]
  simp [leadingTrueCount]

theorem trailingTrueCount_concat_false (fs : List Bool) :
    trailingTrueCount (fs ++ [false]) = 0 := by
  unfold trailingTrueCount
  rw [List.reverse_append]
  simp [leadingTrueCount]

theorem hadIssueFlag_eq_currentStatusFlag (i d : Nat) (th : ℚ) (hth : 0 < th) :
    hadIssueFlag i d th = currentStatusFlag i d th := by
  unfold hadIssueFlag currentStatusFlag ratio6 coalesceQ
  by_cases hd : d = 0
  · subst hd
    simp [lt_asymm hth]
  · simp [hd]

theorem filter_window30 (dataDate : Int) (init : List QualityRow) (rLast : QualityRow)
    (hinit : ∀ r ∈ init, r.date < dataDate) (hlast : rLast.date = dataDate) :
    (init ++ [rLast]).filter (window30 dataDate) = [rLast] := by
  rw [List.filter_append]
  have h1 : init.filter (window30 dataDate) = [] := by
    rw [List.filter_eq_nil_iff]
    intro r hr
    have := hinit r hr
    simp [window30]
    intro h
    omega
  have h2 : window30 dataDate rLast = true := by
    simp [window30, hlast]
  rw [h1]
  simp [h2]

/-- Core streak lemma, parametric in the metric (issue counter and threshold):
for a seller whose pre-aggregated rows are listed in date order, all strictly
before the reference Monday except for the final row at the reference Monday
itself, the effective streak computed by the query equals the trailing count of
consecutive `true` weekly flags. -/
theorem effectiveStreak_eq_trailing_generic
    (issueOf : QualityRow → Nat) (th : ℚ) (hth : 0 < th)
    (startDate dataDate : Int) (init : List QualityRow) (rLast : QualityRow)
    (hinit : ∀ r ∈ init, r.date < dataDate)
    (hlast : rLast.date = dataDate)
    (hmon : isMonday dataDate = true)
    (hstart : startDate ≤ dataDate) :
    effectiveStreakOf
        (currentStatusFlag (sumBy (init ++ [rLast]) (window30 dataDate) issueOf)
          (delivered30D dataDate (init ++ [rLast])) th)
        (latestStreak (((init ++ [rLast]).filter (weeklyKeep startDate)).map
          (fun r => hadIssueFlag (issueOf r) r.nbDelivered th)))
      = trailingTrueCount (((init ++ [rLast]).filter (weeklyKeep startDate)).map
          (fun r => hadIssueFlag (issueOf r) r.nbDelivered th)) := by
  have hwin := filter_window30 dataDate init rLast hinit hlast
  have hsum : ∀ f : QualityRow → Nat,
      sumBy (init ++ [rLast]) (window30 dataDate) f = f rLast := by
    intro f
    unfold sumBy
    rw [hwin]
    simp
  have hkeep : weeklyKeep startDate rLast = true := by
    simp [weeklyKeep, hlast, hmon, hstart]
  have hsplit : (init ++ [rLast]).filter (weeklyKeep startDate)
      = init.filter (weeklyKeep startDate) ++ [rLast] := by
    rw [List.filter_append]
    simp [hkeep]
  rw [hsplit, List.map_append]
  rw [hsum issueOf]
  show effectiveStreakOf (currentStatusFlag (issueOf rLast) (delivered30D dataDate (init ++ [rLast])) th) _ = _
  have hdel : delivered30D dataDate (init ++ [rLast]) = rLast.nbDelivered := hsum _
  rw [hdel]
  rw [← hadIssueFlag_eq_currentStatusFlag _ _ _ hth]
  set fs := (init.filter (weeklyKeep startDate)).map
    (fun r => hadIssueFlag (issueOf r) r.nbDelivered th) with hfs
  set b := hadIssueFlag (issueOf rLast) rLast.nbDelivered th with hb
  show effectiveStreakOf b (latestStreak (fs ++ [b])) = trailingTrueCount (fs ++ [b])
  cases hbv : b
  · rw [trailingTrueCount_concat_false]
    rfl
  · unfold latestStreak
    rw [latestStreakAux_concat_true, trailingTrueCount_concat_true, curRun_zero_eq]
    rfl

/-- C1: for every seller present at the evaluation Monday (its rows listed in
ascending date order, the reference Monday's row last) and for each metric, the
effective streak computed by the query equals the number of trailing
consecutive present weeks with a true pass/fail flag ending at the most recent
observed week — in particular it is 0 when the most recent week's flag is
false, restarts at 1 when issues resume after a present non-failing week, and
equals k for a series with exactly k trailing consecutive failing weeks. -/
theorem effectiveStreak_eq_trailingTrueCount
    (startDate dataDate : Int) (init : List QualityRow) (rLast : QualityRow)
    (_hsorted : List.Chain' (fun a b => a.date < b.date) (init ++ [rLast]))
    (hinit : ∀ r ∈ init, r.date < dataDate)
    (hlast : rLast.date = dataDate)
    (hmon : isMonday dataDate = true)
    (hstart : startDate ≤ dataDate) :
    effectiveDefectiveStreak startDate dataDate (init ++ [rLast])
        = trailingTrueCount (weeklyDefectiveFlags startDate (init ++ [rLast]))
    ∧ effectiveAppearanceStreak startDate dataDate (init ++ [rLast])
        = trailingTrueCount (weeklyAppearanceFlags startDate (init ++ [rLast])) :=
  ⟨effectiveStreak_eq_trailing_generic (·.nbDefectiveIssue) (3 / 100) (by norm_num)
      startDate dataDate init rLast hinit hlast hmon hstart,
    effectiveStreak_eq_trailing_generic (·.nbAppearanceIssue) (3 / 400) (by norm_num)
      startDate dataDate init rLast hinit hlast hmon hstart⟩

/-- Concrete weekly history for the C1 witness: no issues at week 0, then
issues in weeks 7 and 14 (5 issues out of 100 delivered, rate 5 percent). -/
def c1Init : List QualityRow := [⟨0, 0, 0, 100⟩, ⟨7, 5, 5, 100⟩]

/-- Reference-Monday row for the C1 witness. -/
def c1Last : QualityRow := ⟨14, 5, 5, 100⟩

/-- Witness for C1: a three-week series with flags false, true, true has a
trailing run of 2 and the query's effective streak is 2 as well. -/
theorem effectiveStreak_eq_trailingTrueCount_witness :
    effectiveDefectiveStreak 0 14 (c1Init ++ [c1Last])
        = trailingTrueCount (weeklyDefectiveFlags 0 (c1Init ++ [c1Last]))
    ∧ trailingTrueCount (weeklyDefectiveFlags 0 (c1Init ++ [c1Last])) = 2 := by
  constructor
  · exact (effectiveStreak_eq_trailingTrueCount 0 14 c1Init c1Last
      (by norm_num [c1Init, c1Last, List.chain'_cons, List.chain'_singleton])
      (by decide) rfl (by decide) (by decide)).1
  · have hf : hadIssueFlag 0 100 (3 / 100) = false := by decide
    have ht : hadIssueFlag 5 100 (3 / 100) = true := by
      simp only [hadIssueFlag, ratio6, round6]
      norm_num
    simp [weeklyDefectiveFlags, weeklyKeep, isMonday, c1Init, c1Last, hf, ht,
      trailingTrueCount, leadingTrueCount]

/-!  Part 2: the Apps-Script side (`Email.gs`, id matching in `UI.gs`). -/

/-- JS `String.prototype.trim` over the character list: whitespace stripped
from both ends. -/
def trimChars (cs : List Char) : List Char :=
  ((cs.dropWhile Char.isWhitespace).reverse.dropWhile Char.isWhitespace).reverse

/-- JS `s.trim()`. -/
def jsTrim (s : String) : String := ⟨trimChars s.data⟩

/-- Accumulating pass of `jsSplitComma`. -/
def splitCommaAux (acc : List Char) : List Char → List String
  | [] => [⟨acc.reverse⟩]
  | c :: rest =>
      if c = ',' then ⟨acc.reverse⟩ :: splitCommaAux [] rest
      else splitCommaAux (c :: acc) rest

/-- JS `s.split(',')` (the empty string yields one empty piece, a trailing
comma yields a trailing empty piece). -/
def jsSplitComma (s : String) : List String := splitCommaAux [] s.data

/-- A spreadsheet cell value as the script sees it: a string or a number
(seller ids arrive in either type; the integers cover the id domain). -/
inductive JSVal where
  | str : String → JSVal
  | num : Int → JSVal
deriving Repr, DecidableEq

/-- JS `String(v)`. -/
def jsToString : JSVal → String
  | .str s => s
  | .num n => toString n

/-- JS truthiness on cell values: the number 0 and the empty string are
falsy. -/
def jsFalsy : JSVal → Bool
  | .str s => s = ""
  | .num n => n = 0

/-- JS `v || ""`. -/
def jsOrEmptyStr (v : JSVal) : JSVal := if jsFalsy v then .str "" else v

/-- Numeric value of a list of decimal digits. -/
def digitsToNat (cs : List Char) : Nat :=
  cs.foldl (fun acc c => acc * 10 + (c.toNat - 48)) 0

/-- Parse a nonempty all-digit character list, `none` otherwise. -/
def parseDecimalNat (cs : List Char) : Option Nat :=
  if cs ≠ [] ∧ cs.all Char.isDigit then some (digitsToNat cs) else none

/-- JS `Number(v)` on the values this script compares: a number converts to
itself; a string is trimmed, the empty remainder converts to 0, a signed
decimal integer literal converts to its value, and anything else is NaN
(`none`).  Fractional and exponent literals do not occur among seller ids and
are out of the modelled domain. -/
def jsNumber : JSVal → Option Int
  | .num n => some n
  | .str s =>
      let t := trimChars s.data
      if t = [] then some 0
      else
        match t with
        | '-' :: ds => (parseDecimalNat ds).map (fun n => -(Int.ofNat n))
        | '+' :: ds => (parseDecimalNat ds).map (fun n => Int.ofNat n)
        | ds => (parseDecimalNat ds).map (fun n => Int.ofNat n)

/-- JS `===` on two `Number(...)` results: NaN compares unequal to
everything, itself included. -/
def jsNumEq : Option Int → Option Int → Bool
  | some a, some b => a = b
  | _, _ => false

/-- One-row test of the scan in `updateSellerResponseStatus` (Email.gs):
`rowIdString === searchIdString || rowIdNumber === searchIdNumber` with
`rowIdString = String(rowData || "").trim()`, `searchIdString =
String(sellerId).trim()`, `rowIdNumber = Number(rowData)` and
`searchIdNumber = Number(sellerId)`. -/
def updateIdMatches (sellerId : String) (rowData : JSVal) : Bool :=
  decide (jsTrim (jsToString (jsOrEmptyStr rowData)) = jsTrim sellerId)
    || jsNumEq (jsNumber rowData) (jsNumber (.str sellerId))

/-- One-row test of the scans in `showSellerTrackingHistory` (UI.gs):
`String(row || "").trim() === searchId` with `searchId =
String(sellerId).trim()` — a plain string comparison, no numeric fallback. -/
def historyIdMatches (sellerId : String) (rowData : JSVal) : Bool :=
  decide (jsTrim (jsToString (jsOrEmptyStr rowData)) = jsTrim sellerId)

/-- Character class of the email regex in `isValidEmail` (Core.gs): anything
that is not whitespace and not an at sign. -/
def isEmailChar (c : Char) : Bool := !c.isWhitespace && decide (c ≠ '@')

/-- Accumulating split of a character list at each at sign. -/
def splitAtSign (acc : List Char) : List Char → List (List Char)
  | [] => [acc.reverse]
  | c :: rest =>
      if c = '@' then acc.reverse :: splitAtSign [] rest
      else splitAtSign (c :: acc) rest

/-- `isValidEmail` (Core.gs): the string matches the whole-string regex of a
nonempty run of non-whitespace non-at characters, an at sign, and a domain
that contains a dot at an interior position — equivalently, exactly one at
sign, no whitespace, nonempty local part, and a dot that is neither the first
nor the last character of the domain. -/
def isValidEmail (email : String) : Bool :=
  match splitAtSign [] email.data with
  | [localPart, domain] =>
      decide (localPart ≠ []) && localPart.all isEmailChar && domain.all isEmailChar
        && (domain.drop 1).dropLast.contains '.'
  | _ => false

/-- One row of the main `Email Tracking` sheet. -/
structure TrackingRecord where
  trackingId : String
  email : String
  sellerId : JSVal
  emailType : String
  sendTimestamp : String
  openTimestamp : String
  opened : String
  viewCount : Nat
deriving Repr, DecidableEq

/-- One row of a tier-specific log sheet (First Warning Log, Last Warning Log,
Suspension Log), fourteen columns as created by `recordEmailInTrackingSheet`. -/
structure ResponseRecord where
  sellerId : JSVal
  sellerName : String
  email : String
  defectiveRate : JSVal
  defectiveLabel : String
  appearanceRate : JSVal
  appearanceLabel : String
  consecutiveDefectiveWeeks : Nat
  consecutiveAppearanceWeeks : Nat
  sendTimestamp : String
  responseTimestamp : String
  responseReceived : String
  resolutionStatus : String
  notes : String
deriving Repr, DecidableEq

/-- The fields of `extractRowData` that `sendQualityNotification` consumes. -/
structure SellerData where
  sellerId : JSVal
  sellerName : String
  sellerEmail : String
  finalEmailAction : String
  defectiveRate : JSVal
  defectiveLabel : String
  appearanceRate : JSVal
  appearanceLabel : String
  consecutiveDefectiveWeeks : Nat
  consecutiveAppearanceWeeks : Nat
deriving Repr, DecidableEq

/-- The three tier-specific tracking sheets. -/
inductive Tier where
  | firstWarning
  | lastWarning
  | suspension
deriving Repr, DecidableEq

/-- The switch over the action/email-type string shared by
`sendQualityNotification` and `updateSellerResponseStatus`: the three known
actions select a tier sheet, anything else falls to the default branch. -/
def tierForAction (a : String) : Option Tier :=
  if a = "Send First Warning" then some .firstWarning
  else if a = "Send Last Warning" then some .lastWarning
  else if a = "Send Suspension Notice" then some .suspension
  else none

/-- The sheet-backed tracking tables. -/
structure TrackState where
  mainTracking : List TrackingRecord
  firstWarningLog : List ResponseRecord
  lastWarningLog : List ResponseRecord
  suspensionLog : List ResponseRecord
deriving Repr, DecidableEq

/-- The tier sheet selected by a tier. -/
def logOf (st : TrackState) : Tier → List ResponseRecord
  | .firstWarning => st.firstWarningLog
  | .lastWarning => st.lastWarningLog
  | .suspension => st.suspensionLog

/-- Replace the selected tier sheet. -/
def setLog (st : TrackState) : Tier → List ResponseRecord → TrackState
  | .firstWarning, rows => { st with firstWarningLog := rows }
  | .lastWarning, rows => { st with lastWarningLog := rows }
  | .suspension, rows => { st with suspensionLog := rows }

/-- The row appended by `recordTrackingId`: open timestamp empty, opened `No`,
view count 0; the email column holds the seller's full (possibly
comma-separated) email field, as passed by `generateTrackingPixel`. -/
def newTrackingRecord (trackingId : String) (data : SellerData) (now : String) :
    TrackingRecord :=
  { trackingId := trackingId, email := data.sellerEmail, sellerId := data.sellerId,
    emailType := data.finalEmailAction, sendTimestamp := now,
    openTimestamp := "", opened := "No", viewCount := 0 }

/-- The row appended by `recordEmailInTrackingSheet`: response timestamp empty,
response received `No`, resolution status `Pending`, notes empty. -/
def newResponseRecord (data : SellerData) (addr now : String) : ResponseRecord :=
  { sellerId := data.sellerId, sellerName := data.sellerName, email := addr,
    defectiveRate := data.defectiveRate, defectiveLabel := data.defectiveLabel,
    appearanceRate := data.appearanceRate, appearanceLabel := data.appearanceLabel,
    consecutiveDefectiveWeeks := data.consecutiveDefectiveWeeks,
    consecutiveAppearanceWeeks := data.consecutiveAppearanceWeeks,
    sendTimestamp := now, responseTimestamp := "", responseReceived := "No",
    resolutionStatus := "Pending", notes := "" }

/-- `sendQualityNotification` (Email.gs): the switch on `finalEmailAction`
selects template/subject/tier sheet or returns false at the default branch;
the tracking pixel is generated once (appending one row to the main tracking
sheet) before the send loop; the loop sends to each trimmed comma-separated
address that passes `isValidEmail`, appending one tier-sheet row per sent
address, and the function returns whether at least one address was sent to.
Template loading and mail transport are hosted services, modelled as
succeeding.  Result: (return value, addresses sent to, updated tables). -/
def sendQualityNotification (st : TrackState) (trackingId now : String)
    (data : SellerData) : Bool × List String × TrackState :=
  match tierForAction data.finalEmailAction with
  | none => (false, [], st)
  | some tier =>
      let st1 : TrackState :=
        { st with mainTracking := st.mainTracking ++ [newTrackingRecord trackingId data now] }
      let sent := ((jsSplitComma data.sellerEmail).map jsTrim).filter isValidEmail
      let st2 := setLog st1 tier
        (logOf st1 tier ++ sent.map (fun a => newResponseRecord data a now))
      (decide (0 < sent.length), sent, st2)

/-- The per-row mutation of `recordEmailOpen`: on first open set the open
timestamp, mark opened `Yes` and set the view count to 1; otherwise increment
the view counter (`Number(views || 0) + 1`, and a natural-number view count is
its own `|| 0` coercion). -/
def openTrackingRow (now : String) (r : TrackingRecord) : TrackingRecord :=
  if r.opened = "No" then
    { r with openTimestamp := now, opened := "Yes", viewCount := 1 }
  else { r with viewCount := r.viewCount + 1 }

/-- `recordEmailOpen` (Email.gs): scan the main tracking sheet top-down, mutate
the first row whose tracking id matches, and stop. -/
def recordEmailOpen (trackingId now : String) : List TrackingRecord → List TrackingRecord
  | [] => []
  | r :: rest =>
      if r.trackingId = trackingId then openTrackingRow now r :: rest
      else r :: recordEmailOpen trackingId now rest

/-- The row mutation of `updateSellerResponseStatus`: set the response
timestamp, response received `Yes` and resolution status; write notes only
when notes were provided (a nonempty string is truthy). -/
def updateResponseRow (now status notes : String) (r : ResponseRecord) : ResponseRecord :=
  { r with responseTimestamp := now, responseReceived := "Yes",
           resolutionStatus := status,
           notes := if notes ≠ "" then notes else r.notes }

/-- The scan of `updateSellerResponseStatus` over one tier sheet: find the
first row whose seller id matches, mutate it, and stop; report whether a row
was found. -/
def updateResponseRows (sellerId now status notes : String) :
    List ResponseRecord → Bool × List ResponseRecord
  | [] => (false, [])
  | r :: rest =>
      if updateIdMatches sellerId r.sellerId then
        (true, updateResponseRow now status notes r :: rest)
      else
        let res := updateResponseRows sellerId now status notes rest
        (res.1, r :: res.2)

/-- `updateSellerResponseStatus` (Email.gs): the switch on the email type
selects the tier sheet (false at the default branch), then the scan mutates
the first matching row of that sheet only. -/
def updateSellerResponseStatus (st : TrackState) (sellerId emailType status notes now : String) :
    Bool × TrackState :=
  match tierForAction emailType with
  | none => (false, st)
  | some tier =>
      let res := updateResponseRows sellerId now status notes (logOf st tier)
      (res.1, setLog st tier res.2)

/-- The main-sheet row selection of `showSellerTrackingHistory` (UI.gs). -/
def sellerHistoryRows (sellerId : String) (rows : List TrackingRecord) :
    List TrackingRecord :=
  rows.filter (fun r => historyIdMatches sellerId r.sellerId)

theorem logOf_setLog_same (st : TrackState) (t : Tier) (rows : List ResponseRecord) :
    logOf (setLog st t rows) t = rows := by
  cases t <;> rfl

theorem logOf_setLog_other (st : TrackState) (t t' : Tier) (rows : List ResponseRecord)
    (h : t' ≠ t) : logOf (setLog st t rows) t' = logOf st t' := by
  cases t <;> cases t' <;> first | rfl | exact absurd rfl h

theorem mainTracking_setLog (st : TrackState) (t : Tier) (rows : List ResponseRecord) :
    (setLog st t rows).mainTracking = st.mainTracking := by
  cases t <;> rfl

theorem logOf_mainTracking_update (st : TrackState) (x : List TrackingRecord) (t : Tier) :
    logOf { st with mainTracking := x } t = logOf st t := by
  cases t <;> rfl

/-- An empty set of tracking tables. -/
def emptyTrackState : TrackState :=
  { mainTracking := [], firstWarningLog := [], lastWarningLog := [], suspensionLog := [] }

/-- Seller row used for the C6 counterexample: two valid comma-separated
addresses. -/
def c6Data : SellerData :=
  { sellerId := .str "S2", sellerName := "Seller Two",
    sellerEmail := "a@x.com,b@y.com", finalEmailAction := "Send First Warning",
    defectiveRate := .str "0.05", defectiveLabel := "Alerting",
    appearanceRate := .str "0", appearanceLabel := "",
    consecutiveDefectiveWeeks := 1, consecutiveAppearanceWeeks := 0 }

/-- Counterexample for C6: a seller with two valid addresses gets two
successful sends, but the dispatcher appends only one TrackingRecord to the
main sheet (the pixel is generated once, before the send loop) and two
ResponseRecords to the tier sheet — not one TrackingRecord per successful send
plus one ResponseRecord as claimed. -/
theorem dispatch_record_counts_counterexample :
    (sendQualityNotification emptyTrackState "tid-2" "t0" c6Data).2.1.length = 2
    ∧ (sendQualityNotification emptyTrackState "tid-2" "t0" c6Data).2.2.mainTracking.length = 1
    ∧ (sendQualityNotification emptyTrackState "tid-2" "t0" c6Data).2.2.firstWarningLog.length = 2
    ∧ ¬ ((sendQualityNotification emptyTrackState "tid-2" "t0" c6Data).2.2.mainTracking.length
          = (sendQualityNotification emptyTrackState "tid-2" "t0" c6Data).2.1.length
        ∧ (sendQualityNotification emptyTrackState "tid-2" "t0" c6Data).2.2.firstWarningLog.length
          = 1) := by
  decide

/-- C6 as amended: for a dispatched seller whose final action selects a tier,
the dispatcher sends to exactly the trimmed comma-separated addresses that
pass validation (invalid addresses are skipped per-address), the per-seller
send succeeds iff at least one address was valid, one TrackingRecord is
appended to the main sheet per seller, one ResponseRecord is appended to the
selected tier sheet per successful send, and the other tier sheets are
untouched. -/
theorem dispatch_sends_and_records (st : TrackState) (trackingId now : String)
    (data : SellerData) (tier : Tier)
    (ht : tierForAction data.finalEmailAction = some tier) :
    (sendQualityNotification st trackingId now data).2.1
        = ((jsSplitComma data.sellerEmail).map jsTrim).filter isValidEmail
    ∧ (sendQualityNotification st trackingId now data).1
        = decide (0 < (((jsSplitComma data.sellerEmail).map jsTrim).filter isValidEmail).length)
    ∧ (sendQualityNotification st trackingId now data).2.2.mainTracking
        = st.mainTracking ++ [newTrackingRecord trackingId data now]
    ∧ logOf (sendQualityNotification st trackingId now data).2.2 tier
        = logOf st tier
            ++ (((jsSplitComma data.sellerEmail).map jsTrim).filter isValidEmail).map
                (fun a => newResponseRecord data a now)
    ∧ ∀ t, t ≠ tier →
        logOf (sendQualityNotification st trackingId now data).2.2 t = logOf st t := by
  unfold sendQualityNotification
  rw [ht]
  refine ⟨rfl, rfl, ?_, ?_, ?_⟩
  · rw [mainTracking_setLog]
  · rw [logOf_setLog_same, logOf_mainTracking_update]
  · intro t htne
    rw [logOf_setLog_other _ _ _ _ htne, logOf_mainTracking_update]

/-- Seller row used for the C6 witness: one valid and one invalid address. -/
def c6WitnessData : SellerData :=
  { sellerId := .str "S3", sellerName := "Seller Three",
    sellerEmail := "a@x.com,bad", finalEmailAction := "Send Last Warning",
    defectiveRate := .str "0.05", defectiveLabel := "Alerting",
    appearanceRate := .str "0", appearanceLabel := "",
    consecutiveDefectiveWeeks := 4, consecutiveAppearanceWeeks := 0 }

/-- Witness for C6 as amended: the invalid address is skipped, the valid one is
sent to, and the run succeeds. -/
theorem dispatch_sends_and_records_witness :
    tierForAction c6WitnessData.finalEmailAction = some Tier.lastWarning
    ∧ (sendQualityNotification emptyTrackState "tid-3" "t1" c6WitnessData).2.1
        = ((jsSplitComma c6WitnessData.sellerEmail).map jsTrim).filter isValidEmail
    ∧ (sendQualityNotification emptyTrackState "tid-3" "t1" c6WitnessData).2.1 = ["a@x.com"]
    ∧ (sendQualityNotification emptyTrackState "tid-3" "t1" c6WitnessData).1 = true :=
  ⟨by decide,
    (dispatch_sends_and_records emptyTrackState "tid-3" "t1" c6WitnessData
      Tier.lastWarning (by decide)).1,
    by decide, by decide⟩

theorem recordEmailOpen_append (tid t : String) (pre post : List TrackingRecord)
    (r : TrackingRecord) (hpre : ∀ x ∈ pre, x.trackingId ≠ tid)
    (hr : r.trackingId = tid) :
    recordEmailOpen tid t (pre ++ r :: post) = pre ++ openTrackingRow t r :: post := by
  induction pre with
  | nil => simp [recordEmailOpen, hr]
  | cons x xs ih =>
      have hx : x.trackingId ≠ tid := hpre x (by simp)
      simp only [List.cons_append, recordEmailOpen, if_neg hx, List.append_eq]
      rw [ih (fun y hy => hpre y (by simp [hy]))]

/-- C7: for a freshly created TrackingRecord (opened `No`), the first open call
for its tracking id sets opened to `Yes`, the open timestamp to the current
time and the view count to 1; a second open call on the same id leaves the
open timestamp unchanged and increases the view count by exactly 1.  No other
row of the sheet is touched. -/
theorem email_open_first_and_second (pre post : List TrackingRecord) (r : TrackingRecord)
    (tid t1 t2 : String)
    (hpre : ∀ x ∈ pre, x.trackingId ≠ tid)
    (hr : r.trackingId = tid) (hfresh : r.opened = "No") :
    recordEmailOpen tid t1 (pre ++ r :: post)
        = pre ++ ({ r with openTimestamp := t1, opened := "Yes", viewCount := 1 }
            : TrackingRecord) :: post
    ∧ recordEmailOpen tid t2 (recordEmailOpen tid t1 (pre ++ r :: post))
        = pre ++ ({ r with openTimestamp := t1, opened := "Yes", viewCount := 2 }
            : TrackingRecord) :: post := by
  have h1 : recordEmailOpen tid t1 (pre ++ r :: post)
      = pre ++ ({ r with openTimestamp := t1, opened := "Yes", viewCount := 1 }
          : TrackingRecord) :: post := by
    rw [recordEmailOpen_append tid t1 pre post r hpre hr]
    unfold openTrackingRow
    rw [if_pos hfresh]
  refine ⟨h1, ?_⟩
  rw [h1]
  rw [recordEmailOpen_append tid t2 pre post
    ({ r with openTimestamp := t1, opened := "Yes", viewCount := 1 }) hpre hr]
  unfold openTrackingRow
  rw [if_neg (by decide : ¬ ("Yes" : String) = "No")]

/-- Fresh tracking row for the C7 witness. -/
def c7Rec : TrackingRecord :=
  { trackingId := "tid-7", email := "a@x.com", sellerId := .str "S7",
    emailType := "Send First Warning", sendTimestamp := "t0",
    openTimestamp := "", opened := "No", viewCount := 0 }

/-- Witness for C7 on a one-row sheet. -/
theorem email_open_first_and_second_witness :
    recordEmailOpen "tid-7" "t1" [c7Rec]
        = [{ c7Rec with openTimestamp := "t1", opened := "Yes", viewCount := 1 }]
    ∧ recordEmailOpen "tid-7" "t2" (recordEmailOpen "tid-7" "t1" [c7Rec])
        = [{ c7Rec with openTimestamp := "t1", opened := "Yes", viewCount := 2 }] :=
  email_open_first_and_second [] [] c7Rec "tid-7" "t1" "t2" (by simp) rfl rfl

theorem updateResponseRows_append (sellerId now status notes : String)
    (pre post : List ResponseRecord) (r : ResponseRecord)
    (hpre : ∀ x ∈ pre, updateIdMatches sellerId x.sellerId = false)
    (hr : updateIdMatches sellerId r.sellerId = true) :
    updateResponseRows sellerId now status notes (pre ++ r :: post)
        = (true, pre ++ updateResponseRow now status notes r :: post) := by
  induction pre with
  | nil => simp [updateResponseRows, hr]
  | cons x xs ih =>
      have hx := hpre x (by simp)
      simp only [List.cons_append, updateResponseRows, hx, List.append_eq]
      rw [if_neg (by decide : ¬ false = true)]
      rw [ih (fun y hy => hpre y (by simp [hy]))]

/-- C8: when the seller id matches some row of the selected tier sheet, exactly
the first matching row is mutated — its response timestamp, response received
and resolution status columns are set, its notes column only when notes were
provided — while every other row (the non-matching scan head and the untouched
tail), every other column of the mutated row, the other tier sheets and the
main tracking sheet are left unchanged, and the update reports success. -/
theorem response_update_mutates_single_row (st : TrackState) (tier : Tier)
    (sellerId emailType status notes now : String)
    (ht : tierForAction emailType = some tier)
    (pre post : List ResponseRecord) (r : ResponseRecord)
    (hlog : logOf st tier = pre ++ r :: post)
    (hpre : ∀ x ∈ pre, updateIdMatches sellerId x.sellerId = false)
    (hr : updateIdMatches sellerId r.sellerId = true) :
    (updateSellerResponseStatus st sellerId emailType status notes now).1 = true
    ∧ logOf (updateSellerResponseStatus st sellerId emailType status notes now).2 tier
        = pre ++ ({ r with
            responseTimestamp := now, responseReceived := "Yes",
            resolutionStatus := status,
            notes := if notes ≠ "" then notes else r.notes } : ResponseRecord) :: post
    ∧ (∀ t, t ≠ tier →
        logOf (updateSellerResponseStatus st sellerId emailType status notes now).2 t
          = logOf st t)
    ∧ (updateSellerResponseStatus st sellerId emailType status notes now).2.mainTracking
        = st.mainTracking := by
  have hstep : updateSellerResponseStatus st sellerId emailType status notes now
      = ((updateResponseRows sellerId now status notes (logOf st tier)).1,
          setLog st tier (updateResponseRows sellerId now status notes (logOf st tier)).2) := by
    unfold updateSellerResponseStatus
    rw [ht]
  rw [hstep, hlog, updateResponseRows_append sellerId now status notes pre post r hpre hr]
  refine ⟨rfl, ?_, ?_, ?_⟩
  · rw [logOf_setLog_same]
    rfl
  · intro t htne
    rw [logOf_setLog_other _ _ _ _ htne]
  · rw [mainTracking_setLog]

/-- Tier-sheet row for the C8 witness. -/
def c8Rec : ResponseRecord :=
  { sellerId := .str "S8", sellerName := "Seller Eight", email := "a@x.com",
    defectiveRate := .str "0.05", defectiveLabel := "Alerting",
    appearanceRate := .str "0", appearanceLabel := "",
    consecutiveDefectiveWeeks := 4, consecutiveAppearanceWeeks := 0,
    sendTimestamp := "t1", responseTimestamp := "", responseReceived := "No",
    resolutionStatus := "Pending", notes := "" }

/-- Tracking state for the C8 witness: one row in the First Warning Log. -/
def c8State : TrackState :=
  { mainTracking := [], firstWarningLog := [c8Rec], lastWarningLog := [],
    suspensionLog := [] }

/-- Witness for C8 at a concrete one-row tier sheet. -/
theorem response_update_mutates_single_row_witness :
    (updateSellerResponseStatus c8State "S8" "Send First Warning" "Resolved" "done" "t2").1
        = true
    ∧ logOf (updateSellerResponseStatus c8State "S8" "Send First Warning" "Resolved" "done"
          "t2").2 Tier.firstWarning
        = [({ c8Rec with
            responseTimestamp := "t2", responseReceived := "Yes",
            resolutionStatus := "Resolved",
            notes := if ("done" : String) ≠ "" then "done" else c8Rec.notes }
            : ResponseRecord)] :=
  ⟨(response_update_mutates_single_row c8State Tier.firstWarning "S8" "Send First Warning"
      "Resolved" "done" "t2" (by decide) [] [] c8Rec rfl (by simp) (by decide)).1,
    (response_update_mutates_single_row c8State Tier.firstWarning "S8" "Send First Warning"
      "Resolved" "done" "t2" (by decide) [] [] c8Rec rfl (by simp) (by decide)).2.1⟩

/-- Counterexample for C9: the stored key number 0 and the queried id "0" have
equal trimmed string forms, yet the history lookup fails to match, because
`String(value || "")` collapses the falsy number 0 to the empty string. -/
theorem trimmed_id_match_counterexample :
    jsTrim (jsToString (JSVal.num 0)) = jsTrim "0"
    ∧ historyIdMatches "0" (JSVal.num 0) = false := by
  decide

theorem jsNumber_str_zero (s : String) (h : trimChars s.data = ['0']) :
    jsNumber (.str s) = some 0 := by
  simp only [jsNumber, h]
  rfl

/-- C9 as amended: whenever the trimmed string form of the queried id equals
the trimmed string form of the stored key, the status-update lookup matches
regardless of the stored type (through the string comparison for non-falsy
values, through the numeric comparison for the stored number 0), and the
history lookup matches as long as the stored key is not the number 0 — the one
value its `String(v || "")` coercion collapses to the empty string. -/
theorem trimmed_id_match_amended (q : String) (v : JSVal)
    (htrim : jsTrim (jsToString v) = jsTrim q) :
    updateIdMatches q v = true
    ∧ (v ≠ JSVal.num 0 → historyIdMatches q v = true) := by
  cases v with
  | str s =>
      have hordef : jsOrEmptyStr (.str s) = .str s := by
        by_cases hs : s = ""
        · subst hs
          rfl
        · simp [jsOrEmptyStr, jsFalsy, hs]
      refine ⟨?_, fun _ => ?_⟩
      · unfold updateIdMatches
        rw [hordef]
        simp [htrim]
      · unfold historyIdMatches
        rw [hordef]
        simp [htrim]
  | num n =>
      by_cases hn : n = 0
      · subst hn
        refine ⟨?_, fun hv => absurd rfl hv⟩
        have hq : jsTrim q = "0" := by
          rw [← htrim]
          decide
        have hchars : trimChars q.data = ['0'] := congrArg String.data hq
        unfold updateIdMatches
        rw [jsNumber_str_zero q hchars]
        simp [jsNumEq, jsNumber]
      · have hordef : jsOrEmptyStr (.num n) = .num n := by
          simp [jsOrEmptyStr, jsFalsy, hn]
        refine ⟨?_, fun _ => ?_⟩
        · unfold updateIdMatches
          rw [hordef]
          simp [htrim]
        · unfold historyIdMatches
          rw [hordef]
          simp [htrim]

/-- Witness for C9 as amended: a stored string "42" matches the padded query
" 42 " in both lookups. -/
theorem trimmed_id_match_amended_witness :
    jsTrim (jsToString (JSVal.str "42")) = jsTrim " 42 "
    ∧ updateIdMatches " 42 " (JSVal.str "42") = true
    ∧ historyIdMatches " 42 " (JSVal.str "42") = true :=
  ⟨by decide,
    (trimmed_id_match_amended " 42 " (JSVal.str "42") (by decide)).1,
    (trimmed_id_match_amended " 42 " (JSVal.str "42") (by decide)).2 (by decide)⟩

/-- C10: a seller row whose final email action is none of the three known
actions falls to the default branch of the switch: the dispatcher returns
false immediately, sends to no address, and appends no row to the main
tracking sheet or to any tier sheet. -/
theorem unknown_action_sends_nothing (st : TrackState) (trackingId now : String)
    (data : SellerData)
    (h1 : data.finalEmailAction ≠ "Send First Warning")
    (h2 : data.finalEmailAction ≠ "Send Last Warning")
    (h3 : data.finalEmailAction ≠ "Send Suspension Notice") :
    sendQualityNotification st trackingId now data = (false, [], st) := by
  unfold sendQualityNotification tierForAction
  simp [h1, h2, h3]

/-- Seller row for the C10 witness: final action "No Action". -/
def c10Data : SellerData :=
  { sellerId := .str "S10", sellerName := "Seller Ten", sellerEmail := "a@x.com",
    finalEmailAction := "No Action", defectiveRate := .str "0",
    defectiveLabel := "", appearanceRate := .str "0", appearanceLabel := "",
    consecutiveDefectiveWeeks := 0, consecutiveAppearanceWeeks := 0 }

/-- Witness for C10 at a concrete "No Action" row. -/
theorem unknown_action_sends_nothing_witness :
    c10Data.finalEmailAction = "No Action"
    ∧ sendQualityNotification emptyTrackState "tid-10" "t0" c10Data
        = (false, [], emptyTrackState) :=
  ⟨rfl, unknown_action_sends_nothing emptyTrackState "tid-10" "t0" c10Data
    (by decide) (by decide) (by decide)⟩

end SellerQuality
